import Mathlib

/-!
Verification of the "star" retirement-projection repository.

The repository contains three copies of the same projection engine:
a mock HTTP server in JavaScript (part_000), the same server in
TypeScript (part_001), and an MCP server in TypeScript (part_002).
JavaScript numbers are modelled as rationals (ℚ); `Math.round` is
`⌊x + 1/2⌋` (JS rounds halves toward +∞); input fields that arrive as
JSON values are modelled as `Option ℚ`: `some q` is a value whose
`Number(...)` coercion is the finite number `q`, `none` is a missing or
non-finite field.
-/

namespace Star

/-- JavaScript `Math.round`: rounds to the nearest integer, halves toward
positive infinity, i.e. `⌊x + 1/2⌋`. -/
def jsRound (q : ℚ) : ℤ := ⌊q + (1 : ℚ) / 2⌋

/-- `toNumber(v, def = 0)` from part_000 lines 35-38 / part_001 lines 40-43:
`Number(v)` when finite, else the default `0`.  (The source's string branch
and non-string branch are textually identical: both are `Number(v)`.)
A field is `some q` when `Number(v)` is the finite value `q`, `none`
otherwise. -/
def toNumber (v : Option ℚ) : ℚ :=
  match v with
  | some n => n
  | none => 0

/-- The coerced numeric inputs of the engine: the locals bound at the top of
`estimate` (part_000 lines 41-49, part_002 lines 389-397). -/
structure EstimateInput where
  age : ℚ
  retirementAge : ℚ
  annualSalary : ℚ
  currentSavings : ℚ
  annualContributionPct : ℚ
  employerMatch : Bool
  matchUpToPct : ℚ
  matchRatePct : ℚ
  assumedAnnualReturnPct : ℚ
  deriving Repr, DecidableEq

/-- A raw JSON payload for the HTTP mock endpoint (part_000 `estimate`'s
`payload` argument): every numeric field is optional/arbitrary and goes
through `toNumber`; `employerMatch` goes through `!!`, whose result is
modelled as the `Bool` it produces. -/
structure RawPayload where
  age : Option ℚ
  retirementAge : Option ℚ
  annualSalary : Option ℚ
  currentSavings : Option ℚ
  annualContributionPct : Option ℚ
  employerMatch : Bool
  matchUpToPct : Option ℚ
  matchRatePct : Option ℚ
  assumedAnnualReturnPct : Option ℚ
  deriving Repr, DecidableEq

/-- One emitted projection point (part_000 lines 67-75).  The five currency
fields are the rounded display values, hence integers. -/
structure EstimatePoint where
  year : ℕ
  age : ℚ
  startBalance : ℤ
  employeeContribution : ℤ
  employerMatch : ℤ
  growth : ℤ
  endBalance : ℤ
  deriving Repr, DecidableEq

/-- The summary object (part_000 lines 82-87). -/
structure EstimateSummary where
  years : ℕ
  endingBalance : ℤ
  totalEmployeeContrib : ℤ
  totalEmployerMatch : ℤ
  deriving Repr, DecidableEq

/-- The engine's result `{ summary, points }`. -/
structure EstimateResult where
  summary : EstimateSummary
  points : List EstimatePoint
  deriving Repr, DecidableEq

/-- Lines 61-63 of part_000 (identically lines 417-419 of part_002): the
per-year employer contribution,
`cappedPct = min(contribPct, matchUpToPct)`,
`employerBase = max(0, annualSalary * cappedPct)`,
`employer = employerMatch ? employerBase * matchRatePct : 0`. -/
def employerContribution (annualSalary contribPct matchUpToPct matchRatePct : ℚ)
    (employerMatch : Bool) : ℚ :=
  let cappedPct := min contribPct matchUpToPct
  let employerBase := max 0 (annualSalary * cappedPct)
  if employerMatch then employerBase * matchRatePct else 0

/-- The year loop of the HTTP mock engine (part_000 lines 57-80).  The first
`ℕ` argument is the number of remaining iterations (`years - i`), the second
is the loop index `i`; the rationals are the unrounded `start`,
`totalEmployeeContrib` and `totalEmployerMatch` accumulators.  Returns the
emitted rows and the three final accumulator values. -/
def runYearsHttp (inp : EstimateInput) :
    ℕ → ℕ → ℚ → ℚ → ℚ → List EstimatePoint × ℚ × ℚ × ℚ
  | 0, _, start, totE, totM => ([], start, totE, totM)
  | n + 1, i, start, totE, totM =>
    let year := i + 1
    let ageThisYear := inp.age + (year : ℚ)
    let employeeContribution := max 0 (inp.annualSalary * inp.annualContributionPct)
    let employer := employerContribution inp.annualSalary inp.annualContributionPct
      inp.matchUpToPct inp.matchRatePct inp.employerMatch
    let growth := max 0 ((start + employeeContribution + employer) * inp.assumedAnnualReturnPct)
    let endB := start + employeeContribution + employer + growth
    let pt : EstimatePoint :=
      { year := year
        age := ageThisYear
        startBalance := jsRound start
        employeeContribution := jsRound employeeContribution
        employerMatch := jsRound employer
        growth := jsRound growth
        endBalance := jsRound endB }
    let r := runYearsHttp inp n year endB (totE + employeeContribution) (totM + employer)
    (pt :: r.1, r.2.1, r.2.2.1, r.2.2.2)

/-- The year loop of the MCP engine (part_002 lines 413-436), textually the
same computation as `runYearsHttp`; kept separate because the repository
duplicates it. -/
def runYearsMcp (inp : EstimateInput) :
    ℕ → ℕ → ℚ → ℚ → ℚ → List EstimatePoint × ℚ × ℚ × ℚ
  | 0, _, start, totE, totM => ([], start, totE, totM)
  | n + 1, i, start, totE, totM =>
    let year := i + 1
    let ageThisYear := inp.age + (year : ℚ)
    let employeeContribution := max 0 (inp.annualSalary * inp.annualContributionPct)
    let employer := employerContribution inp.annualSalary inp.annualContributionPct
      inp.matchUpToPct inp.matchRatePct inp.employerMatch
    let growth := max 0 ((start + employeeContribution + employer) * inp.assumedAnnualReturnPct)
    let endB := start + employeeContribution + employer + growth
    let pt : EstimatePoint :=
      { year := year
        age := ageThisYear
        startBalance := jsRound start
        employeeContribution := jsRound employeeContribution
        employerMatch := jsRound employer
        growth := jsRound growth
        endBalance := jsRound endB }
    let r := runYearsMcp inp n year endB (totE + employeeContribution) (totM + employer)
    (pt :: r.1, r.2.1, r.2.2.1, r.2.2.2)

/-- `estimate(payload)` of the HTTP mock server (part_000 lines 40-90 /
part_001 lines 76-126): coerce each field with `toNumber` (and `!!` for the
boolean), compute `years = max(0, Math.round(retirementAge - age))`, run the
year loop from `start = max(0, currentSavings)`, and round the summary
totals once at the end. -/
def estimateHttp (payload : RawPayload) : EstimateResult :=
  let age := toNumber payload.age
  let retirementAge := toNumber payload.retirementAge
  let annualSalary := toNumber payload.annualSalary
  let currentSavings := toNumber payload.currentSavings
  let contribPct := toNumber payload.annualContributionPct
  let employerMatch := payload.employerMatch
  let matchUpToPct := toNumber payload.matchUpToPct
  let matchRatePct := toNumber payload.matchRatePct
  let annualReturn := toNumber payload.assumedAnnualReturnPct
  let years := (max 0 (jsRound (retirementAge - age))).toNat
  let start := max 0 currentSavings
  let r := runYearsHttp
    { age := age
      retirementAge := retirementAge
      annualSalary := annualSalary
      currentSavings := currentSavings
      annualContributionPct := contribPct
      employerMatch := employerMatch
      matchUpToPct := matchUpToPct
      matchRatePct := matchRatePct
      assumedAnnualReturnPct := annualReturn }
    years 0 start 0 0
  { summary :=
      { years := years
        endingBalance := jsRound r.2.1
        totalEmployeeContrib := jsRound r.2.2.1
        totalEmployerMatch := jsRound r.2.2.2 }
    points := r.1 }

/-- `estimate(payload)` of the MCP server (part_002 lines 388-446): its
payload has already been parsed by the zod schema, so every field is a plain
number (absent optional fields were replaced by the default `0`, the boolean
by `false`) and the locals at lines 389-397 are the fields themselves. -/
def estimateMcp (payload : EstimateInput) : EstimateResult :=
  let years := (max 0 (jsRound (payload.retirementAge - payload.age))).toNat
  let start := max 0 payload.currentSavings
  let r := runYearsMcp payload years 0 start 0 0
  { summary :=
      { years := years
        endingBalance := jsRound r.2.1
        totalEmployeeContrib := jsRound r.2.2.1
        totalEmployerMatch := jsRound r.2.2.2 }
    points := r.1 }

/-- Wrapping a fully numeric input as a raw payload: every numeric field is
present and finite. -/
def rawOfInput (inp : EstimateInput) : RawPayload :=
  { age := some inp.age
    retirementAge := some inp.retirementAge
    annualSalary := some inp.annualSalary
    currentSavings := some inp.currentSavings
    annualContributionPct := some inp.annualContributionPct
    employerMatch := inp.employerMatch
    matchUpToPct := some inp.matchUpToPct
    matchRatePct := some inp.matchRatePct
    assumedAnnualReturnPct := some inp.assumedAnnualReturnPct }

/-! ### The `/mock-estimate` request handler (part_000 lines 98-112) -/

/-- The payload `estimate({})` receives: every property access yields
`undefined`, so every numeric field coerces through the default and
`!!undefined` is `false`. -/
def emptyPayload : RawPayload :=
  { age := none
    retirementAge := none
    annualSalary := none
    currentSavings := none
    annualContributionPct := none
    employerMatch := false
    matchUpToPct := none
    matchRatePct := none
    assumedAnnualReturnPct := none }

/-- The body of a `POST /mock-estimate` request, after reading the stream:
`empty` is the empty string (falsy, so `JSON.parse` is skipped), `malformed`
is a non-empty string `JSON.parse` rejects, and `parsed j` is a body that
parses, where `j = none` models a falsy parse result (such as `null`, which
`json || {}` replaces with the empty object). -/
inductive MockBody where
  | empty : MockBody
  | malformed : MockBody
  | parsed : Option RawPayload → MockBody

/-- The observable response of the `/mock-estimate` branch. -/
inductive MockResponse where
  | ok : EstimateResult → MockResponse
  | badRequest : String → MockResponse
  deriving DecidableEq

/-- The `POST /mock-estimate` branch of the request handler (part_000 lines
98-112): an empty raw body is replaced by `{}` without parsing; a body that
fails to parse is answered with `400 { error: "Invalid JSON" }` before the
engine runs; otherwise the parse result (`|| {}`) is passed to `estimate`
and returned with status 200. -/
def handleMockEstimate : MockBody → MockResponse
  | MockBody.empty => MockResponse.ok (estimateHttp emptyPayload)
  | MockBody.malformed => MockResponse.badRequest "Invalid JSON"
  | MockBody.parsed none => MockResponse.ok (estimateHttp emptyPayload)
  | MockBody.parsed (some p) => MockResponse.ok (estimateHttp p)

/-! ### The MCP `CallToolRequestSchema` handler (part_002 lines 533-545) -/

/-- The fields of a registered widget the call-tool handler can observe
(part_002 lines 196-204, minus the filesystem-loaded `html` and the
`invoking`/`invoked` status strings, which the handler never reads). -/
structure PizzazWidget where
  id : String
  title : String
  templateUri : String
  responseText : String
  deriving Repr, DecidableEq

/-- The `widgets` array (part_002 lines 254-318). -/
def widgets : List PizzazWidget :=
  [ { id := "pizza-map", title := "Show Pizza Map",
      templateUri := "ui://widget/pizza-map.html", responseText := "Rendered a pizza map!" },
    { id := "pizza-carousel", title := "Show Pizza Carousel",
      templateUri := "ui://widget/pizza-carousel.html",
      responseText := "Rendered a pizza carousel!" },
    { id := "pizza-albums", title := "Show Pizza Album",
      templateUri := "ui://widget/pizza-albums.html", responseText := "Rendered a pizza album!" },
    { id := "pizza-list", title := "Show Pizza List",
      templateUri := "ui://widget/pizza-list.html", responseText := "Rendered a pizza list!" },
    { id := "star", title := "Retirement Estimator",
      templateUri := "ui://widget/star.html",
      responseText := "Rendered retirement estimator!" },
    { id := "pizza-line-graph", title := "Show Pizza Line Graph",
      templateUri := "ui://widget/pizza-line-graph.html",
      responseText := "Rendered a pizza line graph!" },
    { id := "pizza-table-card", title := "Show Pizza Table Card",
      templateUri := "ui://widget/pizza-table-card.html",
      responseText := "Rendered a pizza table card!" } ]

/-- `widgetsById.get(name)` (part_002 lines 320-326): the map is keyed by
`widget.id`. -/
def widgetsById (name : String) : Option PizzazWidget :=
  widgets.find? (fun w => w.id == name)

/-- The name of the star estimate tool (part_002 line 450). -/
def estimateToolName : String := "estimate_retirement"

/-- The names of all registered tools, `tools = [...widgetTools, estimateTool]`
(part_002 line 458), as returned by the `ListToolsRequestSchema` handler. -/
def toolNames : List String := widgets.map PizzazWidget.id ++ [estimateToolName]

/-- The arguments of a `CallToolRequest` as far as the server's two zod
schemas can see them: `pizzaTopping` for `toolInputParser` (part_002 lines
340-342) and the nine estimate fields for `estimateInputParser` (part_002
lines 376-386). -/
structure ToolCallArgs where
  pizzaTopping : Option String
  age : Option ℚ
  retirementAge : Option ℚ
  annualSalary : Option ℚ
  currentSavings : Option ℚ
  annualContributionPct : Option ℚ
  employerMatch : Option Bool
  matchUpToPct : Option ℚ
  matchRatePct : Option ℚ
  assumedAnnualReturnPct : Option ℚ
  deriving Repr, DecidableEq

/-- `toolInputParser.parse` (part_002 lines 340-342): requires a string
`pizzaTopping`, throws otherwise. -/
def toolInputParse (a : ToolCallArgs) : Except String String :=
  match a.pizzaTopping with
  | some t => Except.ok t
  | none => Except.error "invalid arguments: pizzaTopping required"

/-- What a tool call can produce: the widget reply (response text plus the
`structuredContent` echo of the topping), or a thrown error. -/
inductive CallToolOutcome where
  | reply : String → String → CallToolOutcome
  | thrown : String → CallToolOutcome
  deriving Repr, DecidableEq

/-- The `CallToolRequestSchema` handler (part_002 lines 533-545): look the
requested name up in `widgetsById`; throw `Unknown tool: <name>` when it is
absent; otherwise parse the arguments with `toolInputParser` and return the
widget reply.  This is the only call-tool handler the server registers. -/
def callToolHandler (name : String) (args : ToolCallArgs) : CallToolOutcome :=
  match widgetsById name with
  | none => CallToolOutcome.thrown ("Unknown tool: " ++ name)
  | some w =>
    match toolInputParse args with
    | Except.ok topping => CallToolOutcome.reply w.responseText topping
    | Except.error e => CallToolOutcome.thrown e

/-! ### Concrete inputs used in examples -/

/-- The concrete scenario of the spec's testable property 6:
`{age:35, retirementAge:37, annualSalary:100000, currentSavings:10000,
annualContributionPct:0.10, employerMatch:true, matchUpToPct:0.06,
matchRatePct:0.5, assumedAnnualReturnPct:0.05}`. -/
def scenarioPayload : RawPayload :=
  { age := some 35
    retirementAge := some 37
    annualSalary := some 100000
    currentSavings := some 10000
    annualContributionPct := some (1 / 10)
    employerMatch := true
    matchUpToPct := some (3 / 50)
    matchRatePct := some (1 / 2)
    assumedAnnualReturnPct := some (1 / 20) }

/-- A payload with a negative match rate, `employerMatch` on, one simulated
year and zero assumed return. -/
def negativeMatchRatePayload : RawPayload :=
  { age := some 0
    retirementAge := some 1
    annualSalary := some 100000
    currentSavings := some 0
    annualContributionPct := some (3 / 50)
    employerMatch := true
    matchUpToPct := some (3 / 50)
    matchRatePct := some (-1)
    assumedAnnualReturnPct := some 0 }

end Star

namespace Star

/-! ### Basic lemmas about `jsRound` and the per-year quantities -/

theorem jsRound_nonneg {q : ℚ} (h : 0 ≤ q) : 0 ≤ jsRound q := by
  unfold jsRound
  exact Int.le_floor.mpr (by push_cast; linarith)

theorem jsRound_nonpos {q : ℚ} (h : q ≤ 0) : jsRound q ≤ 0 := by
  unfold jsRound
  have h2 : ⌊q + (1 : ℚ) / 2⌋ ≤ ⌊(1 : ℚ) / 2⌋ := Int.floor_le_floor (by linarith)
  have h3 : ⌊(1 : ℚ) / 2⌋ = 0 := by norm_num
  omega

theorem jsRound_zero : jsRound 0 = 0 := by norm_num [jsRound]

theorem employerContribution_nonneg {annualSalary contribPct matchUpToPct matchRatePct : ℚ}
    {employerMatch : Bool}
    (h : employerMatch = false ∨ 0 ≤ matchRatePct) :
    0 ≤ employerContribution annualSalary contribPct matchUpToPct matchRatePct employerMatch := by
  unfold employerContribution
  cases employerMatch with
  | false => simp
  | true =>
    rcases h with h | h
    · cases h
    · simpa using mul_nonneg (le_max_left 0 _) h

/-! ### The two copies of the year loop coincide -/

theorem runYearsHttp_eq_runYearsMcp (inp : EstimateInput) :
    ∀ (n i : ℕ) (start totE totM : ℚ),
      runYearsHttp inp n i start totE totM = runYearsMcp inp n i start totE totM := by
  intro n
  induction n with
  | zero => intro i start totE totM; rfl
  | succ n ih =>
    intro i start totE totM
    simp only [runYearsHttp, runYearsMcp, ih]

end Star

namespace Star

/-! ### Loop invariants of `runYearsHttp` -/

theorem runYearsHttp_length (inp : EstimateInput) :
    ∀ (n i : ℕ) (start totE totM : ℚ),
      (runYearsHttp inp n i start totE totM).1.length = n := by
  intro n
  induction n with
  | zero => intro i start totE totM; rfl
  | succ n ih =>
    intro i start totE totM
    simp only [runYearsHttp, List.length_cons, ih]

theorem runYearsHttp_head_startBalance (inp : EstimateInput) :
    ∀ (n i : ℕ) (start totE totM : ℚ) (a : EstimatePoint),
      (runYearsHttp inp n i start totE totM).1.get? 0 = some a →
      a.startBalance = jsRound start := by
  intro n
  cases n with
  | zero => intro i start totE totM a h; simp [runYearsHttp] at h
  | succ n =>
    intro i start totE totM a h
    simp only [runYearsHttp, List.get?_cons_zero, Option.some.injEq] at h
    rw [← h]

theorem runYearsHttp_consecutive (inp : EstimateInput) :
    ∀ (n i : ℕ) (start totE totM : ℚ) (k : ℕ) (a b : EstimatePoint),
      (runYearsHttp inp n i start totE totM).1.get? k = some a →
      (runYearsHttp inp n i start totE totM).1.get? (k + 1) = some b →
      b.startBalance = a.endBalance := by
  intro n
  induction n with
  | zero =>
    intro i start totE totM k a b ha _
    simp [runYearsHttp] at ha
  | succ n ih =>
    intro i start totE totM k a b ha hb
    cases k with
    | zero =>
      simp only [runYearsHttp, List.get?_cons_zero, Option.some.injEq] at ha
      simp only [runYearsHttp, List.get?_cons_succ] at hb
      have hb2 := runYearsHttp_head_startBalance inp n (i + 1) _ _ _ b hb
      rw [hb2, ← ha]
    | succ k =>
      simp only [runYearsHttp, List.get?_cons_succ] at ha hb
      exact ih _ _ _ _ k a b ha hb

end Star

namespace Star

theorem runYearsHttp_points_nonneg (inp : EstimateInput)
    (hm : inp.employerMatch = false ∨ 0 ≤ inp.matchRatePct) :
    ∀ (n i : ℕ) (start totE totM : ℚ), 0 ≤ start →
      ∀ pt ∈ (runYearsHttp inp n i start totE totM).1,
        0 ≤ pt.startBalance ∧ 0 ≤ pt.employeeContribution ∧ 0 ≤ pt.employerMatch ∧
          0 ≤ pt.growth ∧ 0 ≤ pt.endBalance := by
  intro n
  induction n with
  | zero =>
    intro i start totE totM _ pt hpt
    simp [runYearsHttp] at hpt
  | succ n ih =>
    intro i start totE totM hstart pt hpt
    have hec : (0 : ℚ) ≤ max 0 (inp.annualSalary * inp.annualContributionPct) :=
      le_max_left 0 _
    have hemp : (0 : ℚ) ≤ employerContribution inp.annualSalary inp.annualContributionPct
        inp.matchUpToPct inp.matchRatePct inp.employerMatch :=
      employerContribution_nonneg hm
    have hgrow : (0 : ℚ) ≤ max 0
        ((start + max 0 (inp.annualSalary * inp.annualContributionPct) +
            employerContribution inp.annualSalary inp.annualContributionPct
              inp.matchUpToPct inp.matchRatePct inp.employerMatch) *
          inp.assumedAnnualReturnPct) :=
      le_max_left 0 _
    have hend : (0 : ℚ) ≤ start + max 0 (inp.annualSalary * inp.annualContributionPct) +
        employerContribution inp.annualSalary inp.annualContributionPct
          inp.matchUpToPct inp.matchRatePct inp.employerMatch +
        max 0 ((start + max 0 (inp.annualSalary * inp.annualContributionPct) +
            employerContribution inp.annualSalary inp.annualContributionPct
              inp.matchUpToPct inp.matchRatePct inp.employerMatch) *
          inp.assumedAnnualReturnPct) := by
      have h1 : (0 : ℚ) ≤ start + max 0 (inp.annualSalary * inp.annualContributionPct) :=
        add_nonneg hstart hec
      have h2 := add_nonneg h1 hemp
      exact add_nonneg h2 hgrow
    simp only [runYearsHttp, List.mem_cons] at hpt
    rcases hpt with hpt | hpt
    · subst hpt
      exact ⟨jsRound_nonneg hstart, jsRound_nonneg hec, jsRound_nonneg hemp,
        jsRound_nonneg hgrow, jsRound_nonneg hend⟩
    · exact ih (i + 1) _ _ _ hend pt hpt

theorem runYearsHttp_no_match (inp : EstimateInput) (h : inp.employerMatch = false) :
    ∀ (n i : ℕ) (start totE totM : ℚ),
      (∀ pt ∈ (runYearsHttp inp n i start totE totM).1, pt.employerMatch = 0) ∧
        (runYearsHttp inp n i start totE totM).2.2.2 = totM := by
  intro n
  induction n with
  | zero =>
    intro i start totE totM
    exact ⟨by intro pt hpt; simp [runYearsHttp] at hpt, rfl⟩
  | succ n ih =>
    intro i start totE totM
    have hz : employerContribution inp.annualSalary inp.annualContributionPct
        inp.matchUpToPct inp.matchRatePct inp.employerMatch = 0 := by
      rw [h]; simp [employerContribution]
    constructor
    · intro pt hpt
      simp only [runYearsHttp, List.mem_cons] at hpt
      rcases hpt with hpt | hpt
      · subst hpt
        simp only [hz, jsRound_zero]
      · exact ((ih (i + 1) _ _ _).1) pt hpt
    · simp only [runYearsHttp]
      rw [(ih (i + 1) _ _ _).2, hz, add_zero]

end Star

namespace Star

/-! ### Claim theorems -/

/-- C1: the code-bug evidence.  `estimate_retirement` is registered in the
server's tool list, yet the only `CallToolRequestSchema` handler resolves
tool names through `widgetsById` alone, so invoking `estimate_retirement`
with schema-valid arguments (`age` and `retirementAge` numbers, the rest
defaulted) throws `Unknown tool: estimate_retirement` instead of running
the projection engine and returning the `{ summary, points }` payload. -/
theorem estimate_tool_call_throws_unknown_tool :
    estimateToolName ∈ toolNames ∧
    callToolHandler estimateToolName
      { pizzaTopping := none, age := some 35, retirementAge := some 37,
        annualSalary := none, currentSavings := none, annualContributionPct := none,
        employerMatch := none, matchUpToPct := none, matchRatePct := none,
        assumedAnnualReturnPct := none } =
      CallToolOutcome.thrown "Unknown tool: estimate_retirement" := by
  constructor
  · simp [toolNames, estimateToolName]
  · rfl

/-- C2: for every input whose nine fields are finite numbers (with a boolean
`employerMatch`), the HTTP mock server's `estimate` and the MCP server's
`estimate` return identical `{ summary, points }` results. -/
theorem http_and_mcp_engines_agree (inp : EstimateInput) :
    estimateHttp (rawOfInput inp) = estimateMcp inp := by
  simp only [estimateHttp, estimateMcp, rawOfInput, toNumber,
    runYearsHttp_eq_runYearsMcp]

/-- C3: on the spec's concrete scenario the engine emits exactly the two
stated points: year 1 has employeeContribution 10000, employerMatch 3000,
growth 1150 and endBalance 24150, and year 2 starts at 24150 and applies
the same per-year arithmetic to the carried balance. -/
theorem concrete_scenario_two_years :
    (estimateHttp
      { age := some 35, retirementAge := some 37, annualSalary := some 100000,
        currentSavings := some 10000, annualContributionPct := some (1 / 10),
        employerMatch := true, matchUpToPct := some (3 / 50),
        matchRatePct := some (1 / 2), assumedAnnualReturnPct := some (1 / 20) }).points =
    [{ year := 1, age := 36, startBalance := 10000, employeeContribution := 10000,
       employerMatch := 3000, growth := 1150, endBalance := 24150 },
     { year := 2, age := 37, startBalance := 24150, employeeContribution := 10000,
       employerMatch := 3000, growth := 1858, endBalance := 39008 }] := by
  norm_num [estimateHttp, runYearsHttp, toNumber, jsRound, employerContribution,
    min_def, max_def]

end Star


namespace Star

/-- C4 counterexample: with a negative `matchRatePct` (which the engine never
clamps) and `employerMatch` on, the year-1 point of
`negativeMatchRatePayload` has `employerMatch = -6000 < 0`, so the claimed
non-negativity of every currency field fails on the code as stated. -/
theorem points_nonneg_counterexample :
    ¬ ∀ pt ∈ (estimateHttp negativeMatchRatePayload).points,
      0 ≤ pt.startBalance ∧ 0 ≤ pt.employeeContribution ∧ 0 ≤ pt.employerMatch ∧
        0 ≤ pt.growth ∧ 0 ≤ pt.endBalance := by
  norm_num [estimateHttp, negativeMatchRatePayload, runYearsHttp, toNumber, jsRound,
    employerContribution, min_def, max_def]

/-- C4 (amended): whenever `employerMatch` is off or the coerced
`matchRatePct` is non-negative, every emitted point has non-negative
`startBalance`, `employeeContribution`, `employerMatch`, `growth` and
`endBalance`. -/
theorem points_nonneg_of_nonneg_match_rate (p : RawPayload)
    (hm : p.employerMatch = false ∨ 0 ≤ toNumber p.matchRatePct) :
    ∀ pt ∈ (estimateHttp p).points,
      0 ≤ pt.startBalance ∧ 0 ≤ pt.employeeContribution ∧ 0 ≤ pt.employerMatch ∧
        0 ≤ pt.growth ∧ 0 ≤ pt.endBalance := by
  simp only [estimateHttp]
  exact runYearsHttp_points_nonneg _ hm _ _ _ _ _ (le_max_left 0 _)

/-- C4 witness: the amended theorem applied to the spec's concrete scenario
(whose match rate 1/2 is non-negative). -/
theorem points_nonneg_of_nonneg_match_rate_witness :
    (scenarioPayload.employerMatch = false ∨ 0 ≤ toNumber scenarioPayload.matchRatePct) ∧
    ∀ pt ∈ (estimateHttp scenarioPayload).points,
      0 ≤ pt.startBalance ∧ 0 ≤ pt.employeeContribution ∧ 0 ≤ pt.employerMatch ∧
        0 ≤ pt.growth ∧ 0 ≤ pt.endBalance :=
  ⟨Or.inr (by norm_num [toNumber, scenarioPayload]),
   points_nonneg_of_nonneg_match_rate scenarioPayload
     (Or.inr (by norm_num [toNumber, scenarioPayload]))⟩

/-- C5: for every payload and every pair of adjacent emitted points, the
later point's rounded `startBalance` equals the earlier point's rounded
`endBalance` (the unrounded carry is the same rational, so the rounded
display values agree exactly). -/
theorem balance_continuity (p : RawPayload) (k : ℕ) (a b : EstimatePoint)
    (ha : (estimateHttp p).points.get? k = some a)
    (hb : (estimateHttp p).points.get? (k + 1) = some b) :
    b.startBalance = a.endBalance := by
  simp only [estimateHttp] at ha hb
  exact runYearsHttp_consecutive _ _ _ _ _ _ k a b ha hb

/-- C5 witness: continuity between the two points of the spec's concrete
scenario. -/
theorem balance_continuity_witness :
    (estimateHttp scenarioPayload).points.get? 0 =
      some { year := 1, age := 36, startBalance := 10000, employeeContribution := 10000,
             employerMatch := 3000, growth := 1150, endBalance := 24150 } ∧
    (estimateHttp scenarioPayload).points.get? 1 =
      some { year := 2, age := 37, startBalance := 24150, employeeContribution := 10000,
             employerMatch := 3000, growth := 1858, endBalance := 39008 } ∧
    ({ year := 2, age := 37, startBalance := 24150, employeeContribution := 10000,
       employerMatch := 3000, growth := 1858, endBalance := 39008 } : EstimatePoint).startBalance =
      ({ year := 1, age := 36, startBalance := 10000, employeeContribution := 10000,
         employerMatch := 3000, growth := 1150, endBalance := 24150 } : EstimatePoint).endBalance :=
  ⟨by norm_num [estimateHttp, scenarioPayload, runYearsHttp, toNumber, jsRound,
      employerContribution, min_def, max_def],
   by norm_num [estimateHttp, scenarioPayload, runYearsHttp, toNumber, jsRound,
      employerContribution, min_def, max_def],
   balance_continuity scenarioPayload 0 _ _
     (by norm_num [estimateHttp, scenarioPayload, runYearsHttp, toNumber, jsRound,
        employerContribution, min_def, max_def])
     (by norm_num [estimateHttp, scenarioPayload, runYearsHttp, toNumber, jsRound,
        employerContribution, min_def, max_def])⟩

end Star

namespace Star

/-- C6: when the coerced `retirementAge` does not exceed the coerced `age`,
the engine emits no points and the summary has `years = 0`,
`endingBalance = round(max(0, currentSavings))` and both totals zero. -/
theorem zero_year_boundary (p : RawPayload)
    (h : toNumber p.retirementAge ≤ toNumber p.age) :
    (estimateHttp p).points = [] ∧
    (estimateHttp p).summary.years = 0 ∧
    (estimateHttp p).summary.endingBalance = jsRound (max 0 (toNumber p.currentSavings)) ∧
    (estimateHttp p).summary.totalEmployeeContrib = 0 ∧
    (estimateHttp p).summary.totalEmployerMatch = 0 := by
  have h1 : jsRound (toNumber p.retirementAge - toNumber p.age) ≤ 0 :=
    jsRound_nonpos (by linarith)
  have h2 : max 0 (jsRound (toNumber p.retirementAge - toNumber p.age)) = 0 :=
    max_eq_left h1
  simp only [estimateHttp, h2, Int.toNat_zero, runYearsHttp]
  simp [jsRound_zero]

/-- C6 witness: a payload with `age = 5`, `retirementAge = 3` and negative
savings `-7` (clamped to 0 before rounding). -/
theorem zero_year_boundary_witness :
    toNumber (some (3 : ℚ)) ≤ toNumber (some (5 : ℚ)) ∧
    ((estimateHttp
        { age := some 5, retirementAge := some 3, annualSalary := none,
          currentSavings := some (-7), annualContributionPct := none,
          employerMatch := false, matchUpToPct := none, matchRatePct := none,
          assumedAnnualReturnPct := none }).points = [] ∧
      (estimateHttp
        { age := some 5, retirementAge := some 3, annualSalary := none,
          currentSavings := some (-7), annualContributionPct := none,
          employerMatch := false, matchUpToPct := none, matchRatePct := none,
          assumedAnnualReturnPct := none }).summary.years = 0 ∧
      (estimateHttp
        { age := some 5, retirementAge := some 3, annualSalary := none,
          currentSavings := some (-7), annualContributionPct := none,
          employerMatch := false, matchUpToPct := none, matchRatePct := none,
          assumedAnnualReturnPct := none }).summary.endingBalance =
        jsRound (max 0 (toNumber (some (-7 : ℚ)))) ∧
      (estimateHttp
        { age := some 5, retirementAge := some 3, annualSalary := none,
          currentSavings := some (-7), annualContributionPct := none,
          employerMatch := false, matchUpToPct := none, matchRatePct := none,
          assumedAnnualReturnPct := none }).summary.totalEmployeeContrib = 0 ∧
      (estimateHttp
        { age := some 5, retirementAge := some 3, annualSalary := none,
          currentSavings := some (-7), annualContributionPct := none,
          employerMatch := false, matchUpToPct := none, matchRatePct := none,
          assumedAnnualReturnPct := none }).summary.totalEmployerMatch = 0) :=
  ⟨by norm_num [toNumber],
   zero_year_boundary _ (by norm_num [toNumber])⟩

/-- C7: the per-year employer contribution is monotonically non-decreasing
in `matchRatePct`, and once the employee contribution rate is at least
`matchUpToPct`, changing it further leaves the employer contribution
unchanged (the match base saturates at the `matchUpToPct` ceiling). -/
theorem employer_match_capping
    (annualSalary matchUpToPct matchRatePct r1 r2 contribPct p1 p2 : ℚ)
    (employerMatch : Bool) :
    (r1 ≤ r2 →
      employerContribution annualSalary contribPct matchUpToPct r1 employerMatch ≤
        employerContribution annualSalary contribPct matchUpToPct r2 employerMatch) ∧
    (matchUpToPct ≤ p1 → matchUpToPct ≤ p2 →
      employerContribution annualSalary p1 matchUpToPct matchRatePct employerMatch =
        employerContribution annualSalary p2 matchUpToPct matchRatePct employerMatch) := by
  constructor
  · intro h
    unfold employerContribution
    cases employerMatch with
    | false => simp
    | true =>
      simp only [if_true]
      exact mul_le_mul_of_nonneg_left h (le_max_left 0 _)
  · intro h1 h2
    unfold employerContribution
    rw [min_eq_right h1, min_eq_right h2]

/-- C7 witness: at salary 100000 and ceiling 0.06, raising the match rate
from 1/4 to 1/2 does not lower the employer amount, and raising the
contribution rate from 0.06 to 0.10 (both at or above the ceiling) leaves
it unchanged. -/
theorem employer_match_capping_witness :
    ((1 : ℚ) / 4 ≤ 1 / 2 ∧ (3 : ℚ) / 50 ≤ 3 / 50 ∧ (3 : ℚ) / 50 ≤ 1 / 10) ∧
    (employerContribution 100000 (1 / 10) (3 / 50) (1 / 4) true ≤
      employerContribution 100000 (1 / 10) (3 / 50) (1 / 2) true) ∧
    (employerContribution 100000 (3 / 50) (3 / 50) (1 / 2) true =
      employerContribution 100000 (1 / 10) (3 / 50) (1 / 2) true) :=
  ⟨⟨by norm_num, by norm_num, by norm_num⟩,
   (employer_match_capping 100000 (3 / 50) (1 / 2) (1 / 4) (1 / 2) (1 / 10) (3 / 50)
     (1 / 10) true).1 (by norm_num),
   (employer_match_capping 100000 (3 / 50) (1 / 2) (1 / 4) (1 / 2) (1 / 10) (3 / 50)
     (1 / 10) true).2 (by norm_num) (by norm_num)⟩

/-- C8: with the employer-match toggle off, the `employerMatch` field of
every emitted point is exactly 0 and the summary's `totalEmployerMatch` is
0, whatever the other fields are. -/
theorem no_employer_match_zero (p : RawPayload) (h : p.employerMatch = false) :
    (∀ pt ∈ (estimateHttp p).points, pt.employerMatch = 0) ∧
    (estimateHttp p).summary.totalEmployerMatch = 0 := by
  simp only [estimateHttp]
  refine ⟨(runYearsHttp_no_match _ h _ _ _ _ _).1, ?_⟩
  rw [(runYearsHttp_no_match _ h _ _ _ _ _).2, jsRound_zero]

/-- C8 witness: a payload with the toggle off but large salary, contribution
rate, match ceiling and match rate. -/
theorem no_employer_match_zero_witness :
    ({ age := some 30, retirementAge := some 33, annualSalary := some 50000,
       currentSavings := some 1000, annualContributionPct := some (1 / 10),
       employerMatch := false, matchUpToPct := some (1 / 2), matchRatePct := some 2,
       assumedAnnualReturnPct := some (1 / 10) } : RawPayload).employerMatch = false ∧
    ((∀ pt ∈ (estimateHttp
        { age := some 30, retirementAge := some 33, annualSalary := some 50000,
          currentSavings := some 1000, annualContributionPct := some (1 / 10),
          employerMatch := false, matchUpToPct := some (1 / 2), matchRatePct := some 2,
          assumedAnnualReturnPct := some (1 / 10) }).points, pt.employerMatch = 0) ∧
      (estimateHttp
        { age := some 30, retirementAge := some 33, annualSalary := some 50000,
          currentSavings := some 1000, annualContributionPct := some (1 / 10),
          employerMatch := false, matchUpToPct := some (1 / 2), matchRatePct := some 2,
          assumedAnnualReturnPct := some (1 / 10) }).summary.totalEmployerMatch = 0) :=
  ⟨rfl, no_employer_match_zero _ rfl⟩

/-- C9: the engine is total and its loop runs exactly
`years = max(0, round(retirementAge - age))` times: for every raw payload
(missing or non-finite fields coerced to 0) the result's points list has
length `years` and the summary records the same `years`. -/
theorem engine_total_points_length (p : RawPayload) :
    (estimateHttp p).points.length =
      (max 0 (jsRound (toNumber p.retirementAge - toNumber p.age))).toNat ∧
    (estimateHttp p).summary.years =
      (max 0 (jsRound (toNumber p.retirementAge - toNumber p.age))).toNat := by
  exact ⟨by simp only [estimateHttp, runYearsHttp_length], rfl⟩

/-- C10: an empty `POST /mock-estimate` body is not rejected: the handler
substitutes the empty object, runs the engine on all-default inputs and
answers 200 with a zero-year projection; a non-empty body that fails to
parse is answered 400 `Invalid JSON` and carries no engine output. -/
theorem mock_estimate_empty_body_ok :
    handleMockEstimate MockBody.empty = MockResponse.ok (estimateHttp emptyPayload) ∧
    (estimateHttp emptyPayload).summary.years = 0 ∧
    (estimateHttp emptyPayload).points = [] ∧
    handleMockEstimate MockBody.malformed = MockResponse.badRequest "Invalid JSON" := by
  refine ⟨rfl, ?_, ?_, rfl⟩ <;>
    norm_num [estimateHttp, emptyPayload, toNumber, jsRound, runYearsHttp]

end Star
